import Mathlib

/-!
Verification of the Knowsta chat API (`src/api/index.py`): a shallow
embedding of the module initialization, the API-key auth gate, and the
three HTTP routes (health check, POST /messages, GET /messages), together
with theorems settling the specification claims.

The external persistence layer (Supabase) is not part of this repository;
its behaviour (server-assigned `id` / `created_at`, order-by-descending
select, possible failures) is modelled explicitly as a `Store` plus
call-outcome parameters.
-/

/-- A minimal JSON value model for response bodies. -/
inductive Json where
  | jbool (b : Bool)
  | jnum (n : Nat)
  | jstr (s : String)
  | jarr (elems : List Json)
  | jobj (fields : List (String × Json))

/-- Whether a JSON object has a field with the given key (false on non-objects). -/
def Json.hasKey : Json → String → Bool
  | .jobj kvs, k => kvs.any (fun p => p.fst = k)
  | _, _ => false

/-- An HTTP response: status code and JSON body. -/
structure Response where
  status : Nat
  body : Json

/-- A message record as stored and returned by the persistence layer. -/
structure Record where
  id : Nat
  user_id : String
  content : String
  created_at : Nat
deriving DecidableEq, Repr

/-- JSON serialization of a message record. -/
def Record.toJson (r : Record) : Json :=
  .jobj [("id", .jnum r.id), ("user_id", .jstr r.user_id),
         ("content", .jstr r.content), ("created_at", .jnum r.created_at)]

/-- The pydantic request model `Message` of `src/api/index.py`: two required
string fields. A value of this type is a payload that passed validation. -/
structure Message where
  user_id : String
  content : String
deriving DecidableEq, Repr

/-- Python truthiness of an optional environment string: `None` and the empty
string are falsy, every other string is truthy. -/
def envTruthy : Option String → Bool
  | none => false
  | some s => decide (s ≠ "")

/-- Result of module initialization: either a raised `ValueError` halting the
cold start, or a started process with the (possibly unconstructed) Supabase
client and the configured access key. -/
inductive InitResult where
  | raised (msg : String)
  | started (supabaseConstructed : Bool) (api_access_key : String)
deriving DecidableEq, Repr

/-- Embedding of the module-level initialization of `src/api/index.py`
(lines 12-31): read the three environment values, raise a `ValueError` if
the Supabase url/key or the access key is falsy, then try to construct the
Supabase client; a construction failure is printed and leaves the client
`None` (modelled by `create_client_error = some e`). -/
def moduleInit (supabase_url supabase_anon_key api_access_key : Option String)
    (create_client_error : Option String) : InitResult :=
  if !envTruthy supabase_url || !envTruthy supabase_anon_key then
    .raised "SUPABASE_URL and SUPABASE_ANON_KEY must be set in Vercel environment variables."
  else if !envTruthy api_access_key then
    .raised "API_ACCESS_KEY must be set in Vercel to protect the service endpoints."
  else
    .started create_client_error.isNone (api_access_key.getD "")

/-- The uniform 401 response raised by `verify_api_key`. -/
def authDenied : Response :=
  { status := 401,
    body := .jobj [("detail", .jstr "Unauthorized: Invalid or missing X-API-KEY header.")] }

/-- Embedding of `verify_api_key`: deny unless the `X-API-KEY` header is
present and exactly equals the configured access key. `none` models a missing
header; the Python test is `x_api_key is None or x_api_key != API_ACCESS_KEY`. -/
def verify_api_key (api_access_key : String) (x_api_key : Option String) :
    Except Response String :=
  if x_api_key = none ∨ x_api_key ≠ some api_access_key then
    .error authDenied
  else
    .ok (x_api_key.getD "")

/-- Embedding of the `root` healthcheck route (`GET /`). -/
def root : Response :=
  { status := 200,
    body := .jobj [("status", .jstr "ok"), ("service", .jstr "Knowsta Chat Python API")] }

/-- Modelled from the spec: the external persistence layer's `messages`
table. `rows` are the stored records; `nextId` and `clock` model the
server-side generation of `id` and `created_at` (the spec: creation
timestamps strictly order insertion, ids are unique, both are assigned by
the layer, never by this system). -/
structure Store where
  rows : List Record
  nextId : Nat
  clock : Nat
deriving DecidableEq, Repr

/-- Modelled from the spec: the layer's insert assigns `id` and `created_at`
itself and returns the created record. -/
def Store.insertRow (s : Store) (user_id content : String) : Record × Store :=
  let r : Record :=
    { id := s.nextId, user_id := user_id, content := content, created_at := s.clock }
  (r, { rows := s.rows ++ [r], nextId := s.nextId + 1, clock := s.clock + 1 })

/-- Insert a record into a list kept in descending `created_at` order. -/
def insertByCreatedAtDesc (r : Record) : List Record → List Record
  | [] => [r]
  | x :: xs =>
    if r.created_at ≤ x.created_at then x :: insertByCreatedAtDesc r xs
    else r :: x :: xs

/-- Sort a list of records by `created_at` descending (insertion sort),
modelling the layer's `order("created_at", desc=True)`. -/
def orderByCreatedAtDesc : List Record → List Record
  | [] => []
  | x :: xs => insertByCreatedAtDesc x (orderByCreatedAtDesc xs)

/-- Modelled from the spec: the layer's select with
`order("created_at", desc=True).limit(n)`. -/
def Store.selectDescLimit (s : Store) (n : Nat) : List Record :=
  (orderByCreatedAtDesc s.rows).take n

/-- Well-formedness of the modelled store: every stored row's server-assigned
fields predate the generators (in particular, `created_at` values strictly
order insertion, as the spec requires of the persistence layer). -/
def Store.WF (s : Store) : Prop :=
  ∀ r ∈ s.rows, r.created_at < s.clock

instance (s : Store) : Decidable s.WF := by
  unfold Store.WF; infer_instance

/-- Outcome of the Supabase insert call, from the caller's point of view:
it returns the created record, returns an empty record list (so the
`data[1][0]` subscript raises `IndexError`), or raises with some error text. -/
inductive InsertCall where
  | ok
  | emptyResult
  | raiseErr (e : String)
deriving DecidableEq, Repr

/-- Outcome of the Supabase select call: it returns the ordered rows or
raises with some error text. -/
inductive SelectCall where
  | ok
  | raiseErr (e : String)
deriving DecidableEq, Repr

/-- The 500 response for an unconstructed Supabase client. -/
def dbConnError : Response :=
  { status := 500, body := .jobj [("detail", .jstr "Database connection error.")] }

/-- The generic 500 response of `send_message`'s exception handler. -/
def insertFailed : Response :=
  { status := 500,
    body := .jobj [("detail", .jstr "Failed to insert message into database.")] }

/-- The generic 500 response of `get_messages`'s exception handler. -/
def retrieveFailed : Response :=
  { status := 500,
    body := .jobj [("detail", .jstr "Failed to retrieve messages from database.")] }

/-- Embedding of the `send_message` route (`POST /messages`): auth gate,
`if not supabase` check, insert with server-assigned fields, success body
an object with `success = true` and `message_data = record`, exceptions
converted to a generic 500. On `emptyResult` the subscript `data[1][0]`
raises, which the handler converts to the generic 500 even though the write
itself landed. -/
def send_message (supabase : Bool) (api_access_key : String) (db : InsertCall)
    (store : Store) (x_api_key : Option String) (message : Message) :
    Response × Store :=
  match verify_api_key api_access_key x_api_key with
  | .error resp => (resp, store)
  | .ok _ =>
    if !supabase then
      (dbConnError, store)
    else
      match db with
      | .ok =>
        let (r, store2) := store.insertRow message.user_id message.content
        ({ status := 200,
           body := .jobj [("success", .jbool true), ("message_data", r.toJson)] },
         store2)
      | .emptyResult =>
        let (_, store2) := store.insertRow message.user_id message.content
        (insertFailed, store2)
      | .raiseErr _ => (insertFailed, store)

/-- The ascending page returned by a successful `GET /messages`: the 50 most
recent records, reversed in memory (`messages[::-1]`). -/
def listRecent (store : Store) : List Record :=
  (store.selectDescLimit 50).reverse

/-- Embedding of the `get_messages` route (`GET /messages`): auth gate,
`if not supabase` check, select the latest 50 by `created_at` descending,
reverse in memory, exceptions converted to a generic 500. -/
def get_messages (supabase : Bool) (api_access_key : String) (db : SelectCall)
    (store : Store) (x_api_key : Option String) : Response :=
  match verify_api_key api_access_key x_api_key with
  | .error resp => resp
  | .ok _ =>
    if !supabase then
      dbConnError
    else
      match db with
      | .ok => { status := 200, body := .jarr ((listRecent store).map Record.toJson) }
      | .raiseErr _ => retrieveFailed

/-- The record created by a successful insert of a payload's fields. -/
def insertedRecord (store : Store) (m : Message) : Record :=
  (store.insertRow m.user_id m.content).fst

/-- An incoming HTTP request to one of the three routes. -/
inductive Request where
  | getRoot (x_api_key : Option String)
  | postMessages (x_api_key : Option String) (message : Message)
  | getMessages (x_api_key : Option String)
deriving DecidableEq, Repr

/-- The application dispatcher: `GET /` has no auth dependency; the two
message routes are the embeddings above. Returns the response and the
resulting persistence-layer state. -/
def handle (supabase : Bool) (api_access_key : String)
    (insertDb : InsertCall) (selectDb : SelectCall) (store : Store) :
    Request → Response × Store
  | .getRoot _ => (root, store)
  | .postMessages hdr m => send_message supabase api_access_key insertDb store hdr m
  | .getMessages hdr => (get_messages supabase api_access_key selectDb store hdr, store)

/-! ### Sorting lemmas for the modelled order-by-descending select -/

theorem mem_insertByCreatedAtDesc {a r : Record} {l : List Record} :
    a ∈ insertByCreatedAtDesc r l ↔ a = r ∨ a ∈ l := by
  induction l with
  | nil => simp [insertByCreatedAtDesc]
  | cons x xs ih =>
    simp only [insertByCreatedAtDesc]
    split <;> simp [ih] <;> tauto

theorem mem_orderByCreatedAtDesc {a : Record} {l : List Record} :
    a ∈ orderByCreatedAtDesc l ↔ a ∈ l := by
  induction l with
  | nil => simp [orderByCreatedAtDesc]
  | cons x xs ih => simp [orderByCreatedAtDesc, mem_insertByCreatedAtDesc, ih]

theorem pairwise_insertByCreatedAtDesc {r : Record} {l : List Record}
    (h : l.Pairwise (fun a b => b.created_at ≤ a.created_at)) :
    (insertByCreatedAtDesc r l).Pairwise (fun a b => b.created_at ≤ a.created_at) := by
  induction l with
  | nil => simp [insertByCreatedAtDesc]
  | cons x xs ih =>
    rcases List.pairwise_cons.mp h with ⟨hx, hxs⟩
    simp only [insertByCreatedAtDesc]
    split
    case isTrue hle =>
      refine List.pairwise_cons.mpr ⟨?_, ih hxs⟩
      intro y hy
      rcases mem_insertByCreatedAtDesc.mp hy with rfl | hy2
      · exact hle
      · exact hx y hy2
    case isFalse hgt =>
      refine List.pairwise_cons.mpr ⟨?_, h⟩
      intro y hy
      rcases List.mem_cons.mp hy with rfl | hy2
      · exact Nat.le_of_lt (Nat.lt_of_not_le hgt)
      · exact Nat.le_trans (hx y hy2) (Nat.le_of_lt (Nat.lt_of_not_le hgt))

theorem pairwise_orderByCreatedAtDesc (l : List Record) :
    (orderByCreatedAtDesc l).Pairwise (fun a b => b.created_at ≤ a.created_at) := by
  induction l with
  | nil => simp [orderByCreatedAtDesc]
  | cons x xs ih => exact pairwise_insertByCreatedAtDesc ih

theorem head_of_strict_max {r : Record} {l : List Record}
    (hp : l.Pairwise (fun a b => b.created_at ≤ a.created_at))
    (hm : r ∈ l) (hmax : ∀ x ∈ l, x = r ∨ x.created_at < r.created_at) :
    ∃ t, l = r :: t := by
  cases l with
  | nil => cases hm
  | cons x t =>
    rcases hmax x (List.mem_cons_self x t) with rfl | hlt
    · exact ⟨t, rfl⟩
    · have hrt : r ∈ t := by
        rcases List.mem_cons.mp hm with rfl | h
        · exact absurd hlt (Nat.lt_irrefl _)
        · exact h
      have hle := (List.pairwise_cons.mp hp).1 r hrt
      exact absurd (Nat.lt_of_le_of_lt hle hlt) (Nat.lt_irrefl _)

/-! ### Claim theorems -/

/-- C1: every request to a protected route (POST /messages or GET /messages)
whose `X-API-KEY` header is missing, empty, or not exactly equal to the
configured (non-empty, since the process started) access key gets the one
uniform 401 authentication-denied response, and the persistence-layer state
is unchanged. -/
theorem protected_routes_reject_bad_key
    (api_access_key : String) (x_api_key : Option String)
    (hkey : api_access_key ≠ "")
    (hbad : x_api_key = none ∨ x_api_key = some "" ∨ x_api_key ≠ some api_access_key)
    (supabase : Bool) (idb : InsertCall) (sdb : SelectCall) (store : Store) (m : Message) :
    handle supabase api_access_key idb sdb store (.postMessages x_api_key m)
      = (authDenied, store) ∧
    handle supabase api_access_key idb sdb store (.getMessages x_api_key)
      = (authDenied, store) := by
  have hb : x_api_key = none ∨ x_api_key ≠ some api_access_key := by
    rcases hbad with h | h | h
    · exact Or.inl h
    · refine Or.inr ?_
      rw [h]
      exact fun hc => hkey (Option.some.inj hc).symm
    · exact Or.inr h
  have hv : verify_api_key api_access_key x_api_key = .error authDenied := by
    unfold verify_api_key
    rw [if_pos hb]
  constructor
  · simp [handle, send_message, hv]
  · simp [handle, get_messages, hv]

/-- Witness for C1: the concrete empty-string header against the key
"secret-key" is denied on both protected routes with the store unchanged. -/
theorem protected_routes_reject_bad_key_witness :
    handle true "secret-key" .ok .ok { rows := [], nextId := 0, clock := 0 }
        (.postMessages (some "") { user_id := "u1", content := "hi" })
      = (authDenied, { rows := [], nextId := 0, clock := 0 }) ∧
    handle true "secret-key" .ok .ok { rows := [], nextId := 0, clock := 0 }
        (.getMessages (some ""))
      = (authDenied, { rows := [], nextId := 0, clock := 0 }) :=
  protected_routes_reject_bad_key "secret-key" (some "") (by decide)
    (Or.inr (Or.inl rfl)) true .ok .ok _ _

/-- C10: with the process started (the configured key is non-empty), a header
exactly equal to the configured key passes `verify_api_key`, and neither
protected route ever answers 401 to it, whatever the store and the
persistence layer do. -/
theorem correct_key_passes_auth
    (api_access_key : String) (_hkey : api_access_key ≠ "") :
    verify_api_key api_access_key (some api_access_key) = .ok api_access_key ∧
    (∀ (supabase : Bool) (idb : InsertCall) (sdb : SelectCall) (store : Store) (m : Message),
      (handle supabase api_access_key idb sdb store
        (.postMessages (some api_access_key) m)).fst.status ≠ 401) ∧
    (∀ (supabase : Bool) (idb : InsertCall) (sdb : SelectCall) (store : Store),
      (handle supabase api_access_key idb sdb store
        (.getMessages (some api_access_key))).fst.status ≠ 401) := by
  have hv : verify_api_key api_access_key (some api_access_key) = .ok api_access_key := by
    simp [verify_api_key]
  refine ⟨hv, ?_, ?_⟩
  · intro supabase idb sdb store m
    cases supabase <;> cases idb <;>
      simp [handle, send_message, hv, dbConnError, insertFailed, Store.insertRow]
  · intro supabase idb sdb store
    cases supabase <;> cases sdb <;>
      simp [handle, get_messages, hv, dbConnError, retrieveFailed]

/-- Witness for C10: the concrete key "secret-key" authenticates itself. -/
theorem correct_key_passes_auth_witness :
    verify_api_key "secret-key" (some "secret-key") = .ok "secret-key" ∧
    (∀ (supabase : Bool) (idb : InsertCall) (sdb : SelectCall) (store : Store) (m : Message),
      (handle supabase "secret-key" idb sdb store
        (.postMessages (some "secret-key") m)).fst.status ≠ 401) ∧
    (∀ (supabase : Bool) (idb : InsertCall) (sdb : SelectCall) (store : Store),
      (handle supabase "secret-key" idb sdb store
        (.getMessages (some "secret-key"))).fst.status ≠ 401) :=
  correct_key_passes_auth "secret-key" (by decide)

/-- C5 counterexample: the health-check body is the fixed
status/service object and has no "secrets_loaded" field at all, so the
response does not contain the secrets-loaded boolean the claim asserts. -/
theorem health_body_has_no_secrets_loaded :
    root.body.hasKey "secrets_loaded" = false ∧ root.body.hasKey "status" = true := by
  exact ⟨rfl, by decide⟩

/-- C5 (amended): the health check (`GET /`) requires no authentication —
the dispatcher answers it identically for every header and configuration,
leaving the store unchanged — and its body is the fixed object with fields
"status" and "service" only; it carries no secrets-loaded flag and no
secret value. -/
theorem health_check_no_auth_fixed_body :
    (∀ (supabase : Bool) (api_access_key : String) (idb : InsertCall) (sdb : SelectCall)
       (store : Store) (x_api_key : Option String),
       handle supabase api_access_key idb sdb store (.getRoot x_api_key) = (root, store)) ∧
    root.status = 200 ∧
    root.body = .jobj [("status", .jstr "ok"), ("service", .jstr "Knowsta Chat Python API")] ∧
    root.body.hasKey "secrets_loaded" = false :=
  ⟨fun _ _ _ _ _ _ => rfl, rfl, rfl, rfl⟩

/-- C6 counterexample: with the database endpoint absent (and both other
secrets present) module initialization raises a `ValueError` instead of
starting the process. -/
theorem missing_db_env_raises :
    moduleInit none (some "anon-key") (some "service-key") none =
      .raised "SUPABASE_URL and SUPABASE_ANON_KEY must be set in Vercel environment variables." := by
  decide

/-- C6 (amended): if the database endpoint or credential is absent (falsy),
module initialization raises a `ValueError` and the process does not start;
if they are present but the access key is absent it also raises; only when
all three are present and construction of the Supabase client itself fails
is the client left unconstructed (`None`) with the failure logged rather
than raised, the process starting anyway. -/
theorem module_init_behavior :
    (∀ (url anon key cerr : Option String),
       (envTruthy url = false ∨ envTruthy anon = false) →
       moduleInit url anon key cerr =
         .raised "SUPABASE_URL and SUPABASE_ANON_KEY must be set in Vercel environment variables.") ∧
    (∀ (url anon key cerr : Option String),
       envTruthy url = true → envTruthy anon = true → envTruthy key = false →
       moduleInit url anon key cerr =
         .raised "API_ACCESS_KEY must be set in Vercel to protect the service endpoints.") ∧
    (∀ (url anon key : Option String) (e : String),
       envTruthy url = true → envTruthy anon = true → envTruthy key = true →
       moduleInit url anon key (some e) = .started false (key.getD "")) ∧
    (∀ (url anon key : Option String),
       envTruthy url = true → envTruthy anon = true → envTruthy key = true →
       moduleInit url anon key none = .started true (key.getD "")) := by
  refine ⟨?_, ?_, ?_, ?_⟩
  · intro url anon key cerr h
    rcases h with h | h <;> simp [moduleInit, h]
  · intro url anon key cerr hu ha hk
    simp [moduleInit, hu, ha, hk]
  · intro url anon key e hu ha hk
    simp [moduleInit, hu, ha, hk]
  · intro url anon key hu ha hk
    simp [moduleInit, hu, ha, hk]

/-- C7 counterexample: at a concrete authenticated, valid POST whose insert
succeeds, the success body is not the bare created record (it is the
success/message_data wrapper). -/
theorem post_success_body_not_bare_record :
    (send_message true "k" .ok { rows := [], nextId := 0, clock := 0 } (some "k")
        { user_id := "u1", content := "hello" }).fst.body ≠
      (Record.mk 0 "u1" "hello" 0).toJson := fun h =>
  absurd (congrArg (fun j => j.hasKey "success") h) (by decide)

/-- C7 (amended): on an authenticated, valid POST whose insert succeeds and
returns a record, the 200 response body is the object with `success = true`
and `message_data` equal to the single newly created record, whose `id`,
`user_id`, `content`, `created_at` include the server-assigned fields; the
record is appended to the store. -/
theorem post_success_body_wraps_record
    (api_access_key : String) (store : Store) (m : Message) :
    send_message true api_access_key .ok store (some api_access_key) m =
      ({ status := 200,
         body := .jobj [("success", .jbool true),
                        ("message_data", (insertedRecord store m).toJson)] },
       { rows := store.rows ++ [insertedRecord store m],
         nextId := store.nextId + 1, clock := store.clock + 1 }) := by
  simp [send_message, verify_api_key, Store.insertRow, insertedRecord]

/-- C8: on an authenticated, valid POST where the persistence layer accepts
the insert but returns no record, the caller gets the generic 500
insert-failure response. -/
theorem insert_empty_result_yields_500
    (api_access_key : String) (store : Store) (m : Message) :
    (send_message true api_access_key .emptyResult store (some api_access_key) m).fst =
      insertFailed ∧ insertFailed.status = 500 := by
  constructor
  · simp [send_message, verify_api_key]
  · rfl

/-- C9: every persistence-layer failure — client unconstructed, or the call
raising an arbitrary error `e` — yields a fixed generic 500 response that
does not depend on (hence never contains) the raw error text, with the
store unchanged (no partial write), on both protected routes. -/
theorem persistence_failures_generic_500
    (api_access_key : String) (store : Store) (m : Message) (e : String) :
    send_message false api_access_key .ok store (some api_access_key) m
      = (dbConnError, store) ∧
    get_messages false api_access_key .ok store (some api_access_key) = dbConnError ∧
    send_message true api_access_key (.raiseErr e) store (some api_access_key) m
      = (insertFailed, store) ∧
    get_messages true api_access_key (.raiseErr e) store (some api_access_key)
      = retrieveFailed ∧
    dbConnError.status = 500 ∧ insertFailed.status = 500 ∧ retrieveFailed.status = 500 := by
  refine ⟨?_, ?_, ?_, ?_, rfl, rfl, rfl⟩
  · simp [send_message, verify_api_key]
  · simp [get_messages, verify_api_key]
  · simp [send_message, verify_api_key]
  · simp [get_messages, verify_api_key]

/-- C3: a successful authenticated GET /messages answers 200 with the page
fetched in descending `created_at` order and reversed in memory
(`listRecent`); the fetched page is sorted descending and the returned
sequence is sorted ascending: any element before another has
`created_at` less than or equal to it. -/
theorem list_recent_sorted_ascending (api_access_key : String) (store : Store) :
    get_messages true api_access_key .ok store (some api_access_key) =
      { status := 200, body := .jarr ((listRecent store).map Record.toJson) } ∧
    listRecent store = (store.selectDescLimit 50).reverse ∧
    (store.selectDescLimit 50).Pairwise (fun a b => b.created_at ≤ a.created_at) ∧
    (listRecent store).Pairwise (fun a b => a.created_at ≤ b.created_at) := by
  have hdesc : (store.selectDescLimit 50).Pairwise
      (fun a b => b.created_at ≤ a.created_at) :=
    (pairwise_orderByCreatedAtDesc store.rows).sublist (List.take_sublist 50 _)
  refine ⟨by simp [get_messages, verify_api_key], rfl, hdesc, ?_⟩
  exact List.pairwise_reverse.mpr hdesc

/-- C4: whatever the store contains, the sequence of a successful GET
/messages has at most 50 elements, all of them stored rows, and they are
the most recent: any stored row left out has `created_at` at most that of
every returned row. -/
theorem list_recent_at_most_50_most_recent (api_access_key : String) (store : Store) :
    (listRecent store).length ≤ 50 ∧
    (∀ b ∈ listRecent store, b ∈ store.rows) ∧
    (∀ a ∈ store.rows, a ∉ listRecent store →
       ∀ b ∈ listRecent store, a.created_at ≤ b.created_at) ∧
    get_messages true api_access_key .ok store (some api_access_key) =
      { status := 200, body := .jarr ((listRecent store).map Record.toJson) } := by
  refine ⟨?_, ?_, ?_, by simp [get_messages, verify_api_key]⟩
  · simp [listRecent, Store.selectDescLimit]
  · intro b hb
    have hbt : b ∈ (orderByCreatedAtDesc store.rows).take 50 := by
      simpa [listRecent, Store.selectDescLimit] using hb
    exact mem_orderByCreatedAtDesc.mp ((List.take_sublist 50 _).subset hbt)
  · intro a ha hna b hb
    have hbt : b ∈ (orderByCreatedAtDesc store.rows).take 50 := by
      simpa [listRecent, Store.selectDescLimit] using hb
    have hat : a ∉ (orderByCreatedAtDesc store.rows).take 50 := by
      intro hmem
      exact hna (by simpa [listRecent, Store.selectDescLimit] using hmem)
    have haL : a ∈ (orderByCreatedAtDesc store.rows).take 50 ++
        (orderByCreatedAtDesc store.rows).drop 50 := by
      rw [List.take_append_drop]
      exact mem_orderByCreatedAtDesc.mpr ha
    have had : a ∈ (orderByCreatedAtDesc store.rows).drop 50 := by
      rcases List.mem_append.mp haL with h | h
      · exact absurd h hat
      · exact h
    have hpw : ((orderByCreatedAtDesc store.rows).take 50 ++
        (orderByCreatedAtDesc store.rows).drop 50).Pairwise
        (fun a b => b.created_at ≤ a.created_at) := by
      rw [List.take_append_drop]
      exact pairwise_orderByCreatedAtDesc store.rows
    exact (List.pairwise_append.mp hpw).2.2 b hbt a had

/-- C2: on an authenticated, valid POST whose insert succeeds, followed by a
successful authenticated GET, the returned sequence includes the newly
created record; its `user_id` and `content` are the submitted values and its
`id` and `created_at` are the values the persistence layer assigned
(`store.nextId`, `store.clock`), and it is the last (most recent) element. -/
theorem append_then_list_roundtrip
    (api_access_key : String) (store : Store) (m : Message) (hwf : store.WF) :
    send_message true api_access_key .ok store (some api_access_key) m =
      ({ status := 200,
         body := .jobj [("success", .jbool true),
                        ("message_data", (insertedRecord store m).toJson)] },
       (store.insertRow m.user_id m.content).snd) ∧
    (insertedRecord store m).user_id = m.user_id ∧
    (insertedRecord store m).content = m.content ∧
    (insertedRecord store m).id = store.nextId ∧
    (insertedRecord store m).created_at = store.clock ∧
    get_messages true api_access_key .ok (store.insertRow m.user_id m.content).snd
        (some api_access_key) =
      { status := 200,
        body := .jarr ((listRecent (store.insertRow m.user_id m.content).snd).map
          Record.toJson) } ∧
    insertedRecord store m ∈ listRecent (store.insertRow m.user_id m.content).snd ∧
    (listRecent (store.insertRow m.user_id m.content).snd).getLast? =
      some (insertedRecord store m) := by
  refine ⟨by simp [send_message, verify_api_key, Store.insertRow, insertedRecord],
    rfl, rfl, rfl, rfl, by simp [get_messages, verify_api_key], ?_⟩
  have hrows : (store.insertRow m.user_id m.content).snd.rows =
      store.rows ++ [insertedRecord store m] := by
    simp [Store.insertRow, insertedRecord]
  have hp := pairwise_orderByCreatedAtDesc (store.insertRow m.user_id m.content).snd.rows
  have hm : insertedRecord store m ∈
      orderByCreatedAtDesc (store.insertRow m.user_id m.content).snd.rows := by
    rw [mem_orderByCreatedAtDesc, hrows]
    simp
  have hmax : ∀ x ∈ orderByCreatedAtDesc (store.insertRow m.user_id m.content).snd.rows,
      x = insertedRecord store m ∨ x.created_at < (insertedRecord store m).created_at := by
    intro x hx
    rw [mem_orderByCreatedAtDesc, hrows, List.mem_append] at hx
    rcases hx with hx | hx
    · exact Or.inr (hwf x hx)
    · exact Or.inl (List.mem_singleton.mp hx)
  rcases head_of_strict_max hp hm hmax with ⟨t, ht⟩
  have hhead : listRecent (store.insertRow m.user_id m.content).snd =
      (insertedRecord store m :: t.take 49).reverse := by
    simp [listRecent, Store.selectDescLimit, ht]
  constructor
  · rw [hhead, List.mem_reverse]
    exact List.mem_cons_self _ _
  · rw [hhead, List.getLast?_reverse]
    rfl

/-- Witness for C2: the concrete round trip on the empty store with the key
"secret-key" and payload user_id = "u1", content = "hello". -/
theorem append_then_list_roundtrip_witness :
    send_message true "secret-key" .ok { rows := [], nextId := 0, clock := 0 }
        (some "secret-key") { user_id := "u1", content := "hello" } =
      ({ status := 200,
         body := .jobj [("success", .jbool true),
                        ("message_data",
                          (insertedRecord { rows := [], nextId := 0, clock := 0 }
                            { user_id := "u1", content := "hello" }).toJson)] },
       (Store.insertRow { rows := [], nextId := 0, clock := 0 } "u1" "hello").snd) ∧
    (insertedRecord { rows := [], nextId := 0, clock := 0 }
        { user_id := "u1", content := "hello" }).user_id = "u1" ∧
    (insertedRecord { rows := [], nextId := 0, clock := 0 }
        { user_id := "u1", content := "hello" }).content = "hello" ∧
    (insertedRecord { rows := [], nextId := 0, clock := 0 }
        { user_id := "u1", content := "hello" }).id = 0 ∧
    (insertedRecord { rows := [], nextId := 0, clock := 0 }
        { user_id := "u1", content := "hello" }).created_at = 0 ∧
    get_messages true "secret-key" .ok
        (Store.insertRow { rows := [], nextId := 0, clock := 0 } "u1" "hello").snd
        (some "secret-key") =
      { status := 200,
        body := .jarr ((listRecent
          (Store.insertRow { rows := [], nextId := 0, clock := 0 } "u1" "hello").snd).map
            Record.toJson) } ∧
    insertedRecord { rows := [], nextId := 0, clock := 0 }
        { user_id := "u1", content := "hello" } ∈
      listRecent (Store.insertRow { rows := [], nextId := 0, clock := 0 } "u1" "hello").snd ∧
    (listRecent
        (Store.insertRow { rows := [], nextId := 0, clock := 0 } "u1" "hello").snd).getLast? =
      some (insertedRecord { rows := [], nextId := 0, clock := 0 }
        { user_id := "u1", content := "hello" }) :=
  append_then_list_roundtrip "secret-key" { rows := [], nextId := 0, clock := 0 }
    { user_id := "u1", content := "hello" } (by decide)
